import Mathlib

/-! Shallow embedding of the format-selection and download-gating logic of
the dashboard video-downloader page (`dashboard/pages/Video.py`).

The embedding mirrors the source: `FormatSelector` with its quality
comparison, video/audio retrieval, merge table and `parser` pipeline, and
the `Downloader` URL check and status-code gate. Python exceptions are
modelled by explicit error values (`SelErr`, `DlErr`). -/

namespace Dashboard

/-- One stream format descriptor from the catalog of the extraction
engine: the fields of the entries of `ctx["formats"]` that the selector
reads. -/
structure StreamFormat where
  format_id : String
  vcodec : String
  acodec : String
  ext : String
  format_note : String
  protocol : String
deriving Repr, DecidableEq

/-- The exceptions the selection pipeline can raise.
`unavailableExtension` is the ValueError raised by the extension check,
`emptyCatalogMax` the ValueError raised by `max()` on an empty sequence,
`noMatchingFormat` the StopIteration raised by `next()` when no candidate
matches, and `keyError` the KeyError raised by the `MERGE[...]` lookup. -/
inductive SelErr where
  | unavailableExtension : SelErr
  | emptyCatalogMax : SelErr
  | noMatchingFormat : SelErr
  | keyError : SelErr
deriving Repr, DecidableEq

/-- The exceptions the download orchestration can raise: the ValueError on
a rejected URL and the DownloadError on a failed download. -/
inductive DlErr where
  | invalidUrl : DlErr
  | downloadFailed : DlErr
deriving Repr, DecidableEq

/-- The video half of the module-level `EXTENSIONS` table. -/
def EXTENSIONS_video : List String := ["mp4", "webm"]

/-- The audio half of the module-level `EXTENSIONS` table. -/
def EXTENSIONS_audio : List String := ["mp3", "m4a", "webm", "wav"]

/-- `chain.from_iterable(EXTENSIONS.values())`: all known extensions. -/
def allExtensions : List String := EXTENSIONS_video ++ EXTENSIONS_audio

/-- The selector object: its single piece of state is the stored
extension string. -/
structure FormatSelector where
  extension : String
deriving Repr, DecidableEq

/-- The dict yielded by `FormatSelector.parser` on success: the chosen
video and audio formats (`requested_formats`) plus the combined fields. -/
structure SelectionResult where
  video : StreamFormat
  audio : StreamFormat
  format_id : String
  ext : String
  protocol : String
deriving Repr, DecidableEq

namespace FormatSelector

/-- The `RESOLUTIONS` class constant. -/
def RESOLUTIONS : List String := ["1080p", "720p", "480p", "360p", "240p", "144p"]

/-- The `MERGE` class dict; `none` models a KeyError on lookup. -/
def MERGE (ext : String) : Option String :=
  if ext = "mp4" then some "m4a"
  else if ext = "webm" then some "webm"
  else none

/-- The `__init__` method: it receives an extension argument but assigns
the empty string to `self.extension`, discarding the argument. -/
def init (_extension : String) : FormatSelector := { extension := "" }

/-- The `_get_positive_int` helper: `REGEX_INT` is `re.compile("\\d")`, so
`.match` succeeds only on a leading decimal digit and the result is the
value of that single digit; anything else gives 0. -/
def get_positive_int (value : String) : Nat :=
  match value.data with
  | [] => 0
  | c :: _ => if c.isDigit then c.toNat - 48 else 0

/-- The `get_highest_available_quality` method: Python `max` over the
format notes keyed by `get_positive_int`, keeping the earliest element on
ties; `none` models the ValueError `max` raises on an empty sequence. -/
def get_highest_available_quality (formats : List StreamFormat) : Option String :=
  match formats.map (fun f => f.format_note) with
  | [] => none
  | n :: ns =>
    some (ns.foldl (fun acc y =>
      if get_positive_int acc < get_positive_int y then y else acc) n)

/-- The `retrieve_video_format` method: an empty `extension` argument
defaults to `self.extension`; the first format that is video-only, has the
requested quality label, and (when the effective extension is non-empty)
the requested container. -/
def retrieve_video_format (s : FormatSelector) (formats : List StreamFormat)
    (quality : String) (extension : String) : Option StreamFormat :=
  let ext := if extension = "" then s.extension else extension
  formats.find? (fun f =>
    f.vcodec != "none" && f.acodec == "none" &&
      (ext == "" || f.ext == ext) && f.format_note == quality)

/-- The `retrieve_audio_format` method: an empty `extension` argument
defaults to `self.extension`; the first format that is audio-only and
(when the effective extension is non-empty) has the requested container. -/
def retrieve_audio_format (s : FormatSelector) (formats : List StreamFormat)
    (extension : String) : Option StreamFormat :=
  let ext := if extension = "" then s.extension else extension
  formats.find? (fun f =>
    f.vcodec == "none" && f.acodec != "none" && (ext == "" || f.ext == ext))

/-- The quality-target step of `parser`: an extension in the audio table
forces quality "144p" with `is_audio = true`; otherwise the highest
available quality is computed and clamped to "1080p" when it is not one of
the canonical `RESOLUTIONS`. `none` models the ValueError from `max` on an
empty catalog. -/
def target_quality (s : FormatSelector) (formats : List StreamFormat) :
    Option (String × Bool) :=
  if s.extension ∈ EXTENSIONS_audio then some ("144p", true)
  else
    match get_highest_available_quality formats with
    | none => none
    | some q => some ((if q ∈ RESOLUTIONS then q else "1080p"), false)

/-- The `parser` method: extension availability check, catalog reversal,
quality targeting, video retrieval, merge-table lookup (unguarded: a
container outside the table raises KeyError), audio retrieval, and the
combined result dict. -/
def parser (s : FormatSelector) (ctxFormats : List StreamFormat) :
    Except SelErr SelectionResult :=
  if s.extension ≠ "" ∧ s.extension ∉ allExtensions then
    Except.error SelErr.unavailableExtension
  else
    let formats := ctxFormats.reverse
    match s.target_quality formats with
    | none => Except.error SelErr.emptyCatalogMax
    | some (quality, is_audio) =>
      match s.retrieve_video_format formats quality "" with
      | none => Except.error SelErr.noMatchingFormat
      | some video =>
        match (if is_audio then some s.extension else MERGE video.ext) with
        | none => Except.error SelErr.keyError
        | some aext =>
          match s.retrieve_audio_format formats aext with
          | none => Except.error SelErr.noMatchingFormat
          | some audio =>
            Except.ok {
              video := video
              audio := audio
              format_id := video.format_id ++ "+" ++ audio.format_id
              ext := video.ext
              protocol := video.protocol ++ "+" ++ audio.protocol }

/-- The video format the `parser` pipeline would choose: quality targeting
followed by video retrieval, exactly as in `parser`. -/
def chosen_video (s : FormatSelector) (ctxFormats : List StreamFormat) :
    Option StreamFormat :=
  match s.target_quality ctxFormats.reverse with
  | none => none
  | some (quality, _) => s.retrieve_video_format ctxFormats.reverse quality ""

end FormatSelector

/-- The selection operation as reachable from the application: a
`FormatSelector` is constructed from the requested extension (which the
constructor discards) and its `parser` is run on the catalog. -/
def select (extension : String) (catalog : List StreamFormat) :
    Except SelErr SelectionResult :=
  (FormatSelector.init extension).parser catalog

/-- Two sequential calls of `parser` through the same freshly constructed
selector, returning both results. -/
def select_twice (e : String) (c : List StreamFormat) :
    Except SelErr SelectionResult × Except SelErr SelectionResult :=
  let s := FormatSelector.init e
  let r1 := s.parser c
  let r2 := s.parser c
  (r1, r2)

/-- List-of-characters prefix test (Python `str.startswith`). -/
def isPre : List Char → List Char → Bool
  | [], _ => true
  | _ :: _, [] => false
  | a :: as, b :: bs => a == b && isPre as bs

/-- Substring occurrence over characters (Python `needle in hay`). -/
def hasSub (needle : List Char) : List Char → Bool
  | [] => isPre needle []
  | c :: cs => isPre needle (c :: cs) || hasSub needle cs

/-- Python `url.startswith(pre)`. -/
def strStartsWith (url pre : String) : Bool := isPre pre.data url.data

/-- Python `needle in hay` on strings. -/
def strContains (hay needle : String) : Bool := hasSub needle.data hay.data

/-- The `Downloader` object state read by the URL check. -/
structure Downloader where
  url : String
  extension : String
  banned : List String
  formatselector : FormatSelector
deriving Repr, DecidableEq

namespace Downloader

/-- The `Downloader.__init__` method: stores the url and extension, the
banned-word list, and a `FormatSelector` built from the extension. -/
def init (url : String) (extension : String) : Downloader :=
  { url := url
    extension := extension
    banned := ["porn", "xxx"]
    formatselector := FormatSelector.init extension }

/-- The `_check_url` method: `not any((url.startswith("https"),
*[x not in url for x in self.banned], "watch" in url, "you" in url))`. -/
def check_url (d : Downloader) (url : String) : Bool :=
  !(strStartsWith url "https"
    || d.banned.any (fun x => !(strContains url x))
    || strContains url "watch"
    || strContains url "you")

/-- The URL gate at the top of `download_video`: raises ValueError when
`_check_url` returns true. -/
def download_video_urlcheck (d : Downloader) (url : String) : Except DlErr Unit :=
  if d.check_url url then Except.error DlErr.invalidUrl else Except.ok ()

end Downloader

/-- The status gate in `download_video`: `if error_code == 1: raise
DownloadError(...)`; every other status passes. -/
def download_error_code_check (error_code : Int) : Except DlErr Unit :=
  if error_code = 1 then Except.error DlErr.downloadFailed else Except.ok ()

/-- A video-only stream format (AVC video, no audio, HTTPS protocol). -/
def fmtV (id : String) (ext : String) (note : String) : StreamFormat :=
  { format_id := id, vcodec := "avc1", acodec := "none", ext := ext,
    format_note := note, protocol := "https" }

/-- An audio-only stream format (no video, AAC audio, empty note). -/
def fmtA (id : String) (ext : String) : StreamFormat :=
  { format_id := id, vcodec := "none", acodec := "mp4a", ext := ext,
    format_note := "", protocol := "https" }

/-- A combined video+audio stream format. -/
def fmtC (id : String) (ext : String) (note : String) : StreamFormat :=
  { format_id := id, vcodec := "avc1", acodec := "mp4a", ext := ext,
    format_note := note, protocol := "https" }

/-- Catalog with a 1080p and a 720p video-only format and an m4a audio
format (worst-to-best order as delivered by the engine). -/
def C1cat : List StreamFormat :=
  [fmtA "140" "m4a", fmtV "v720" "mp4" "720p", fmtV "v1080" "mp4" "1080p"]

/-- The result `select "" C1cat` produces. -/
def C1res : SelectionResult :=
  { video := fmtV "v720" "mp4" "720p", audio := fmtA "140" "m4a",
    format_id := "v720+140", ext := "mp4", protocol := "https+https" }

/-- Catalog holding an mp3 and an m4a audio format and 144p and 720p
video-only formats. -/
def C2cat : List StreamFormat :=
  [fmtA "a-mp3" "mp3", fmtA "a-m4a" "m4a",
   fmtV "v144" "mp4" "144p", fmtV "v720" "mp4" "720p"]

/-- The result `select "mp3" C2cat` produces. -/
def C2res : SelectionResult :=
  { video := fmtV "v720" "mp4" "720p", audio := fmtA "a-m4a" "m4a",
    format_id := "v720+a-m4a", ext := "mp4", protocol := "https+https" }

/-- Minimal catalog with one valid mp4/m4a pair. -/
def C3cat : List StreamFormat :=
  [fmtA "a1" "m4a", fmtV "v1" "mp4" "720p"]

/-- The result `select "avi" C3cat` produces. -/
def C3res : SelectionResult :=
  { video := fmtV "v1" "mp4" "720p", audio := fmtA "a1" "m4a",
    format_id := "v1+a1", ext := "mp4", protocol := "https+https" }

/-- Catalog with a single combined stream and no video-only or audio-only
format. -/
def C5Wcat : List StreamFormat := [fmtC "c1" "mp4" "720p"]

/-- Catalog with one mp4 video-only format and one m4a audio-only
format. -/
def C6Wcat : List StreamFormat :=
  [fmtA "wa" "m4a", fmtV "wv" "mp4" "720p"]

/-- The result `select "" C6Wcat` produces. -/
def C6Wres : SelectionResult :=
  { video := fmtV "wv" "mp4" "720p", audio := fmtA "wa" "m4a",
    format_id := "wv+wa", ext := "mp4", protocol := "https+https" }

/-- Catalog whose only matching video-only format has the container "mkv",
outside the merge table. -/
def C10cat : List StreamFormat :=
  [fmtA "a0" "m4a", fmtV "vx" "mkv" "720p"]

end Dashboard

deriving instance DecidableEq for Except

namespace Dashboard

theorem maxfold_mem (key : String → Nat) (xs : List String) : ∀ (x : String),
    xs.foldl (fun acc z => if key acc < key z then z else acc) x ∈ x :: xs := by
  induction xs with
  | nil => intro x; simp
  | cons z zs ih =>
    intro x
    rw [List.foldl_cons]
    rcases List.mem_cons.mp (ih (if key x < key z then z else x)) with h1 | h1
    · rw [h1]
      by_cases hk : key x < key z
      · simp [hk]
      · simp [hk]
    · simp [h1]

theorem maxfold_ge (key : String → Nat) (xs : List String) : ∀ (x y : String),
    y ∈ x :: xs →
    key y ≤ key (xs.foldl (fun acc z => if key acc < key z then z else acc) x) := by
  induction xs with
  | nil =>
    intro x y hy
    simp only [List.mem_singleton] at hy
    simp [hy]
  | cons z zs ih =>
    intro x y hy
    rw [List.foldl_cons]
    have hstep1 : key x ≤ key (if key x < key z then z else x) := by
      by_cases hk : key x < key z
      · simp [hk]
        omega
      · simp [hk]
    have hstep2 : key z ≤ key (if key x < key z then z else x) := by
      by_cases hk : key x < key z
      · simp [hk]
      · simp [hk]
        omega
    have hhead := ih (if key x < key z then z else x)
      (if key x < key z then z else x) (List.mem_cons_self _ _)
    rcases List.mem_cons.mp hy with h1 | h1
    · subst h1
      exact le_trans hstep1 hhead
    · rcases List.mem_cons.mp h1 with h2 | h2
      · subst h2
        exact le_trans hstep2 hhead
      · exact ih _ y (List.mem_cons_of_mem _ h2)

theorem select_ok_inv (e : String) (c : List StreamFormat) (r : SelectionResult)
    (h : select e c = Except.ok r) :
    ∃ q video aext audio,
      FormatSelector.get_highest_available_quality c.reverse = some q ∧
      FormatSelector.retrieve_video_format { extension := "" } c.reverse
        (if q ∈ FormatSelector.RESOLUTIONS then q else "1080p") "" = some video ∧
      FormatSelector.MERGE video.ext = some aext ∧
      FormatSelector.retrieve_audio_format { extension := "" } c.reverse aext = some audio ∧
      r = { video := video, audio := audio,
            format_id := video.format_id ++ "+" ++ audio.format_id,
            ext := video.ext,
            protocol := video.protocol ++ "+" ++ audio.protocol } := by
  have h2 : FormatSelector.parser { extension := "" } c = Except.ok r := h
  rw [FormatSelector.parser] at h2
  rw [if_neg (by decide)] at h2
  simp only [FormatSelector.target_quality] at h2
  rw [if_neg (by decide)] at h2
  cases hq : FormatSelector.get_highest_available_quality c.reverse with
  | none => rw [hq] at h2; simp at h2
  | some q =>
    rw [hq] at h2
    simp only [] at h2
    cases hv : FormatSelector.retrieve_video_format { extension := "" } c.reverse
        (if q ∈ FormatSelector.RESOLUTIONS then q else "1080p") "" with
    | none => rw [hv] at h2; simp at h2
    | some video =>
      rw [hv] at h2
      simp only [Bool.false_eq_true, if_false] at h2
      cases hm : FormatSelector.MERGE video.ext with
      | none => rw [hm] at h2; simp at h2
      | some aext =>
        rw [hm] at h2
        simp only [] at h2
        cases ha : FormatSelector.retrieve_audio_format { extension := "" } c.reverse aext with
        | none => rw [ha] at h2; simp at h2
        | some audio =>
          rw [ha] at h2
          simp only [Except.ok.injEq] at h2
          exact ⟨q, video, aext, audio, rfl, hv, hm, ha, h2.symm⟩

end Dashboard

namespace Dashboard

theorem ghq_some_inv (c : List StreamFormat) (q : String)
    (hq : FormatSelector.get_highest_available_quality c = some q) :
    q ∈ c.map (fun f => f.format_note) ∧
    ∀ n ∈ c.map (fun f => f.format_note),
      FormatSelector.get_positive_int n ≤ FormatSelector.get_positive_int q := by
  rw [FormatSelector.get_highest_available_quality] at hq
  cases hmap : c.map (fun f => f.format_note) with
  | nil => rw [hmap] at hq; simp at hq
  | cons n ns =>
    rw [hmap] at hq
    simp only [Option.some.injEq] at hq
    subst hq
    constructor
    · exact maxfold_mem _ ns n
    · intro m hm2
      exact maxfold_ge _ ns n m hm2

theorem retrieve_video_inv (s : FormatSelector) (formats : List StreamFormat)
    (quality extension : String) (v : StreamFormat)
    (h : FormatSelector.retrieve_video_format s formats quality extension = some v) :
    v.format_note = quality := by
  rw [FormatSelector.retrieve_video_format] at h
  have hp := List.find?_some h
  simp only [Bool.and_eq_true, beq_iff_eq] at hp
  exact hp.2

theorem retrieve_audio_ext (s : FormatSelector) (formats : List StreamFormat)
    (extension : String) (a : StreamFormat) (hne : extension ≠ "")
    (h : FormatSelector.retrieve_audio_format s formats extension = some a) :
    a.ext = extension := by
  rw [FormatSelector.retrieve_audio_format] at h
  rw [if_neg hne] at h
  have hp := List.find?_some h
  simp only [Bool.and_eq_true, Bool.or_eq_true, beq_iff_eq] at hp
  rcases hp.2 with hc | hc
  · exact absurd hc hne
  · exact hc

theorem retrieve_video_none_of_combined (s : FormatSelector) (c : List StreamFormat)
    (hall : ∀ f ∈ c, f.acodec ≠ "none") (quality extension : String) :
    FormatSelector.retrieve_video_format s c quality extension = none := by
  rw [FormatSelector.retrieve_video_format]
  apply List.find?_eq_none.mpr
  intro f hf
  have hne := hall f hf
  simp [hne]

end Dashboard

namespace Dashboard

/-- C1 counterexample: on a catalog holding both a 1080p and a 720p
video-only format (plus an m4a audio format), `select` with the empty
extension returns the 720p format, although "1080p" is the highest
canonical label present: the single-leading-digit comparison ranks "720p"
(digit 7) above "1080p" (digit 1). -/
theorem C1_counterexample :
    select "" C1cat = Except.ok C1res ∧
    C1res.video.format_note = "720p" ∧
    fmtV "v1080" "mp4" "1080p" ∈ C1cat ∧
    "1080p" ∈ FormatSelector.RESOLUTIONS ∧
    "720p" ≠ "1080p" := by decide

/-- C1 (amended): whenever `select` with the empty extension succeeds, the
returned video quality label is the label of the catalog that maximises
the single-leading-digit key `get_positive_int` (first maximiser in
best-first order), clamped to "1080p" when that maximiser is not one of
the canonical resolution labels. -/
theorem C1_amended_quality (catalog : List StreamFormat) (r : SelectionResult)
    (h : select "" catalog = Except.ok r) :
    ∃ q, q ∈ catalog.map (fun f => f.format_note) ∧
      (∀ n ∈ catalog.map (fun f => f.format_note),
        FormatSelector.get_positive_int n ≤ FormatSelector.get_positive_int q) ∧
      r.video.format_note = (if q ∈ FormatSelector.RESOLUTIONS then q else "1080p") := by
  obtain ⟨q, video, aext, audio, hq, hv, hm, ha, hr⟩ := select_ok_inv "" catalog r h
  obtain ⟨hmem, hge⟩ := ghq_some_inv catalog.reverse q hq
  refine ⟨q, ?_, ?_, ?_⟩
  · simpa [List.mem_map, List.mem_reverse] using hmem
  · intro n hn
    exact hge n (by simpa [List.mem_map, List.mem_reverse] using hn)
  · rw [hr]
    exact retrieve_video_inv _ _ _ _ _ hv

/-- Witness for the amended C1 at the concrete catalog `C1cat`. -/
theorem C1_amended_quality_witness :
    ∃ q, q ∈ C1cat.map (fun f => f.format_note) ∧
      (∀ n ∈ C1cat.map (fun f => f.format_note),
        FormatSelector.get_positive_int n ≤ FormatSelector.get_positive_int q) ∧
      C1res.video.format_note = (if q ∈ FormatSelector.RESOLUTIONS then q else "1080p") :=
  C1_amended_quality C1cat C1res (by decide)

/-- C2: requesting the audio extension "mp3" on a catalog holding a 144p
video format and an mp3 audio format does not yield a 144p video paired
with an mp3 audio format; because the constructor discards the extension,
the request is handled as a no-preference one and returns the 720p video
with the m4a audio format. -/
theorem C2_audio_extension_ignored :
    select "mp3" C2cat = Except.ok C2res ∧
    C2res.video.format_note = "720p" ∧ C2res.video.format_note ≠ "144p" ∧
    C2res.audio.ext = "m4a" ∧ C2res.audio.ext ≠ "mp3" ∧
    fmtV "v144" "mp4" "144p" ∈ C2cat ∧ fmtA "a-mp3" "mp3" ∈ C2cat := by decide

/-- C3: requesting the unknown extension "avi" does not fail with the
unavailable-extension error; the constructor discards the extension, the
availability check in `parser` never sees it, and the selection
succeeds. -/
theorem C3_unavailable_extension_not_raised :
    "avi" ≠ "" ∧ "avi" ∉ allExtensions ∧
    select "avi" C3cat = Except.ok C3res := by decide

/-- C4: the URL gate accepts "http://example.com/watch?v=abc" although it
does not start with "https", and accepts a URL containing "xxx"; the
`not any` over mixed-polarity conditions rejects almost nothing. -/
theorem C4_url_check_accepts_bad_urls :
    (Downloader.init "" "").download_video_urlcheck
      "http://example.com/watch?v=abc" = Except.ok () ∧
    strStartsWith "http://example.com/watch?v=abc" "https" = false ∧
    (Downloader.init "" "").download_video_urlcheck
      "https://www.xxx.com/watch?v=you" = Except.ok () ∧
    strContains "https://www.xxx.com/watch?v=you" "xxx" = true := by decide

/-- C5 counterexample: the empty catalog contains no video-only/audio-only
split, yet `select` fails with the ValueError raised by `max()` on an
empty sequence, not with the no-matching-format error. -/
theorem C5_empty_catalog_counterexample :
    select "" ([] : List StreamFormat) = Except.error SelErr.emptyCatalogMax ∧
    SelErr.emptyCatalogMax ≠ SelErr.noMatchingFormat := by decide

/-- C5 (amended): for every requested extension and every non-empty
catalog all of whose formats are combined video+audio streams (no
video-only or audio-only entry), `select` fails with the
no-matching-format error. -/
theorem C5_combined_only_no_matching_format (e : String) (c : List StreamFormat)
    (hne : c ≠ [])
    (hall : ∀ f ∈ c, f.vcodec ≠ "none" ∧ f.acodec ≠ "none") :
    select e c = Except.error SelErr.noMatchingFormat := by
  have h0 : select e c = FormatSelector.parser { extension := "" } c := rfl
  rw [h0, FormatSelector.parser, if_neg (by decide)]
  simp only []
  have hvnone : ∀ quality extension,
      FormatSelector.retrieve_video_format { extension := "" } c.reverse
        quality extension = none := by
    intro quality extension
    apply retrieve_video_none_of_combined
    intro f hf
    exact (hall f (List.mem_reverse.mp hf)).2
  cases htq : FormatSelector.target_quality { extension := "" } c.reverse with
  | none =>
    exfalso
    rw [FormatSelector.target_quality, if_neg (by decide)] at htq
    cases hq : FormatSelector.get_highest_available_quality c.reverse with
    | some q => rw [hq] at htq; simp at htq
    | none =>
      rw [FormatSelector.get_highest_available_quality] at hq
      cases hmap : c.reverse.map (fun f => f.format_note) with
      | cons n ns => rw [hmap] at hq; simp at hq
      | nil =>
        apply hne
        have hlen := congrArg List.length hmap
        simp at hlen
        exact hlen
  | some p =>
    obtain ⟨quality, is_audio⟩ := p
    simp only [hvnone quality ""]

/-- Witness for the amended C5 at the one-combined-stream catalog. -/
theorem C5_combined_only_witness :
    select "" C5Wcat = Except.error SelErr.noMatchingFormat :=
  C5_combined_only_no_matching_format "" C5Wcat (by decide) (by decide)

/-- C6: whenever `select` succeeds, a video container "mp4" is paired with
an audio container "m4a" and a video container "webm" with an audio
container "webm", per the `MERGE` table (every selection reachable through
the constructor is a no-audio-extension request). -/
theorem C6_merge_table_pairing (e : String) (c : List StreamFormat)
    (r : SelectionResult) (h : select e c = Except.ok r) :
    (r.video.ext = "mp4" → r.audio.ext = "m4a") ∧
    (r.video.ext = "webm" → r.audio.ext = "webm") := by
  obtain ⟨q, video, aext, audio, hq, hv, hm, ha, hr⟩ := select_ok_inv e c r h
  subst hr
  simp only [] at *
  constructor
  · intro hve
    rw [hve] at hm
    rw [FormatSelector.MERGE] at hm
    simp at hm
    subst hm
    exact retrieve_audio_ext _ _ _ _ (by decide) ha
  · intro hve
    rw [hve] at hm
    rw [FormatSelector.MERGE] at hm
    simp at hm
    subst hm
    exact retrieve_audio_ext _ _ _ _ (by decide) ha

/-- Witness for C6 at the concrete catalog `C6Wcat`. -/
theorem C6_merge_table_pairing_witness :
    (C6Wres.video.ext = "mp4" → C6Wres.audio.ext = "m4a") ∧
    (C6Wres.video.ext = "webm" → C6Wres.audio.ext = "webm") :=
  C6_merge_table_pairing "" C6Wcat C6Wres (by decide)

/-- C7: running the selection twice through the same freshly constructed
selector yields the same result both times, and that result is the one
`select` returns: the pipeline reads but never mutates the selector
state. -/
theorem C7_select_deterministic (e : String) (c : List StreamFormat) :
    (select_twice e c).1 = (select_twice e c).2 ∧
    (select_twice e c).1 = select e c :=
  ⟨rfl, rfl⟩

/-- C8 counterexample: the status 2 is non-zero, yet the status gate in
`download_video` passes it, because the code compares the status with 1
only. -/
theorem C8_nonzero_status_counterexample :
    download_error_code_check 2 = Except.ok () ∧ (2 : Int) ≠ 0 := by decide

/-- C8 (amended): the status gate fails with the download-failed error
exactly when the status equals 1; every other status, zero or not, passes
the check. -/
theorem C8_status_check_iff_one (s : Int) :
    (download_error_code_check s = Except.error DlErr.downloadFailed ↔ s = 1) ∧
    (download_error_code_check s = Except.ok () ↔ s ≠ 1) := by
  rw [download_error_code_check]
  by_cases h : s = 1
  · simp [h]
  · simp [h]

/-- C9: the `FormatSelector` constructor stores the empty string whatever
extension it receives, so every selection behaves as a no-preference
request: `select e` agrees with `select ""` on every catalog. -/
theorem C9_constructor_discards_extension (e : String) (c : List StreamFormat) :
    (FormatSelector.init e).extension = "" ∧ select e c = select "" c :=
  ⟨rfl, rfl⟩

/-- C10: in a no-preference selection, if the first matching video-only
format has a container outside the `MERGE` table (neither "mp4" nor
"webm"), the unguarded table lookup raises a KeyError, not one of the
specified error kinds. -/
theorem C10_merge_key_error (c : List StreamFormat) (v : StreamFormat)
    (hcv : FormatSelector.chosen_video { extension := "" } c = some v)
    (h1 : v.ext ≠ "mp4") (h2 : v.ext ≠ "webm") :
    select "" c = Except.error SelErr.keyError := by
  have h0 : select "" c = FormatSelector.parser { extension := "" } c := rfl
  rw [h0, FormatSelector.parser, if_neg (by decide)]
  simp only []
  rw [FormatSelector.chosen_video] at hcv
  cases htq : FormatSelector.target_quality { extension := "" } c.reverse with
  | none => rw [htq] at hcv; simp at hcv
  | some p =>
    rw [htq] at hcv
    obtain ⟨quality, is_audio⟩ := p
    simp only [] at hcv
    have hb : is_audio = false := by
      rw [FormatSelector.target_quality, if_neg (by decide)] at htq
      cases hq : FormatSelector.get_highest_available_quality c.reverse with
      | none => rw [hq] at htq; simp at htq
      | some q =>
        rw [hq] at htq
        simp only [Option.some.injEq, Prod.mk.injEq] at htq
        exact htq.2.symm
    subst hb
    simp only [hcv, Bool.false_eq_true, if_false]
    simp [FormatSelector.MERGE, h1, h2]

/-- Witness for C10 at the catalog whose matching video format has the
container "mkv". -/
theorem C10_merge_key_error_witness :
    select "" C10cat = Except.error SelErr.keyError :=
  C10_merge_key_error C10cat (fmtV "vx" "mkv" "720p")
    (by decide) (by decide) (by decide)

end Dashboard
